import Mathlib

/-!
Shallow embedding of the mhc-infra-observability Go library.

The library is a facade over the OpenTelemetry Go SDK.  Pure functions of
the repository (config loading, log-level parsing, resource attribute
construction, the trace-context carriers) are translated directly; the
stateful initialization path (tracing.Init, the global tracer provider and
propagator) is modelled as explicit state passing over a `Globals` record
together with an event trace.  Behaviour of the imported SDK that the
repository delegates to (the W3C TraceContext and Baggage propagators,
http.Header / grpc metadata key normalization, slog attribute handling) is
embedded at the level of detail the repository's own code observes.
-/

namespace Mhc

/-! ## config package (config/config.go) -/

/-- Config holds observability configuration loaded from environment
variables (config/config.go). -/
structure Config where
  ServiceName : String
  ServiceVersion : String
  Environment : String
  OtelEndpoint : String
deriving Repr, DecidableEq

/-- An environment: Go's os.Getenv returns "" both for unset and for
empty-set variables, so the environment is a total map to strings. -/
def Env : Type := String → String

/-- config.Load: reads the four OTEL_* environment variables and applies
defaults exactly as config/config.go does (a default replaces the value
when os.Getenv returned ""). -/
def Load (env : Env) : Config :=
  let serviceName0 := env "OTEL_SERVICE_NAME"
  let serviceName := if serviceName0 = "" then "unknown-service" else serviceName0
  let serviceVersion := env "OTEL_SERVICE_VERSION"
  let env0 := env "OTEL_ENVIRONMENT"
  let environment := if env0 = "" then "development" else env0
  let endpoint0 := env "OTEL_EXPORTER_OTLP_ENDPOINT"
  let endpoint := if endpoint0 = "" then "localhost:4317" else endpoint0
  { ServiceName := serviceName
    ServiceVersion := serviceVersion
    Environment := environment
    OtelEndpoint := endpoint }

/-! ## Span contexts (models trace.SpanContext of the imported SDK)

A trace ID is 16 bytes and a span ID 8 bytes; we carry them as naturals
reduced mod 2^128 / 2^64 wherever the width matters.  Validity in the SDK
is "not all zero bytes". -/

/-- Model of trace.SpanContext: trace ID (16 bytes), span ID (8 bytes),
trace flags (1 byte) and the tracestate string. -/
structure SpanContext where
  traceID : Nat
  spanID : Nat
  traceFlags : Nat
  traceState : String
deriving Repr, DecidableEq

/-- SpanContext.IsValid: the trace ID and the span ID are both nonzero. -/
def SpanContext.isValid (sc : SpanContext) : Bool :=
  decide (sc.traceID % 2 ^ 128 ≠ 0) && decide (sc.spanID % 2 ^ 64 ≠ 0)

/-- A context.Context as the library observes it: the span context of the
current span (all zero when no span is present, which is what
trace.SpanFromContext returns then) and the encoded baggage ("" when
empty). -/
structure Context where
  spanContext : SpanContext
  baggage : String
deriving Repr, DecidableEq

/-- The zero span context: what trace.SpanFromContext yields on a context
with no span. -/
def SpanContext.zero : SpanContext := { traceID := 0, spanID := 0, traceFlags := 0, traceState := "" }

/-- A background context: no span, no baggage. -/
def Context.background : Context := { spanContext := SpanContext.zero, baggage := "" }

/-! ## Hex encoding (models TraceID.String / SpanID.String) -/

/-- One lowercase hex digit. -/
def hexDigit (n : Nat) : Char :=
  if n < 10 then Char.ofNat (48 + n) else Char.ofNat (87 + n % 16)

/-- Fixed-width lowercase hex rendering of n (most significant digit
first), as encoding/hex produces for trace and span IDs. -/
def toHexFixed (n width : Nat) : String :=
  String.mk (((List.range width).reverse).map (fun i => hexDigit (n / 16 ^ i % 16)))

/-! ## logging package -/

namespace Logging

/-- logging.TraceContext (logging/context.go): trace and span IDs extracted
from context for log enrichment. -/
structure TraceContext where
  TraceID : String
  SpanID : String
deriving Repr, DecidableEq

/-- logging.FromContext: extracts trace context from ctx; zero values when
the span context is invalid. -/
def FromContext (ctx : Context) : TraceContext :=
  let sc := ctx.spanContext
  if !sc.isValid then { TraceID := "", SpanID := "" }
  else { TraceID := toHexFixed (sc.traceID % 2 ^ 128) 32
         SpanID := toHexFixed (sc.spanID % 2 ^ 64) 16 }

/-- logging.Level (logging/logger.go). -/
inductive Level where
  | LevelDebug
  | LevelInfo
  | LevelError
deriving Repr, DecidableEq

/-- slog.Level as the logger uses it. -/
inductive SlogLevel where
  | debug
  | info
  | error
deriving Repr, DecidableEq

/-- The slog.Logger the library builds: its handler level and the
attributes accumulated through With. -/
structure SlogLogger where
  level : SlogLevel
  attrs : List (String × String)
deriving Repr, DecidableEq

/-- slog.Logger.With: appends attributes. -/
def SlogLogger.With (l : SlogLogger) (args : List (String × String)) : SlogLogger :=
  { l with attrs := l.attrs ++ args }

/-- logging.Logger: wraps slog. -/
structure Logger where
  inner : SlogLogger
deriving Repr, DecidableEq

/-- logging.New: maps the library level to the slog handler level (the
switch in logging/logger.go, default Info) and wraps a fresh JSON-handler
logger. -/
def New (level : Level) : Logger :=
  let slogLevel := match level with
    | .LevelDebug => SlogLevel.debug
    | .LevelInfo => SlogLevel.info
    | .LevelError => SlogLevel.error
  { inner := { level := slogLevel, attrs := [] } }

/-- Logger.WithTrace: adds trace_id and span_id attributes when present in
ctx, returning the inner logger untouched when both are absent. -/
def Logger.WithTrace (l : Logger) (ctx : Context) : SlogLogger :=
  let tc := FromContext ctx
  if tc.TraceID = "" ∧ tc.SpanID = "" then l.inner
  else
    let args : List (String × String) :=
      (if tc.TraceID ≠ "" then [("trace_id", tc.TraceID)] else []) ++
      (if tc.SpanID ≠ "" then [("span_id", tc.SpanID)] else [])
    l.inner.With args

/-- logging.ParseLevel: the switch in logging/logger.go, defaulting to
Info for every string outside the six exact variants. -/
def ParseLevel (s : String) : Level :=
  if s = "debug" ∨ s = "DEBUG" then Level.LevelDebug
  else if s = "info" ∨ s = "INFO" then Level.LevelInfo
  else if s = "error" ∨ s = "ERROR" then Level.LevelError
  else Level.LevelInfo

/-- logging.LoggerFromEnv: builds a logger from the LOG_LEVEL variable. -/
def LoggerFromEnv (env : Env) : Logger :=
  New (ParseLevel (env "LOG_LEVEL"))

/-- A log line as emitted by Logger.Error / Logger.Info: the handler level
the line was logged at, the enriched attribute set, the message and the
key-value args. -/
structure LogLine where
  level : SlogLevel
  attrs : List (String × String)
  msg : String
  args : List (String × String)
deriving Repr, DecidableEq

/-- Logger.Error (logging/logger.go): logs at error level with trace
context from ctx. -/
def Logger.Error (l : Logger) (ctx : Context) (msg : String)
    (args : List (String × String)) : LogLine :=
  let enriched := l.WithTrace ctx
  { level := SlogLevel.error, attrs := enriched.attrs, msg := msg, args := args }

end Logging

/-! ## metrics package (metrics/metrics.go) -/

namespace Metrics

/-- An Add call as delivered to the underlying SDK counter instrument:
the context, the amount, and the AddOption list (attributes). -/
structure AddCall where
  ctx : Context
  n : Int
  opts : List (String × String)
deriving Repr, DecidableEq

/-- Model of the SDK's metric.Int64Counter instrument: identified by name
and description; its Add method emits the call to the SDK. -/
structure Int64Counter where
  name : String
  description : String
deriving Repr, DecidableEq

/-- The instrument's own Add: the single observable effect, delivered to
the SDK as an AddCall. -/
def Int64Counter.instrumentAdd (_c : Int64Counter) (ctx : Context) (n : Int)
    (opts : List (String × String)) : AddCall :=
  { ctx := ctx, n := n, opts := opts }

/-- metrics.Counter: a minimal counter helper wrapping the SDK
instrument. -/
structure Counter where
  counter : Int64Counter
deriving Repr, DecidableEq

/-- Counter.Add (metrics/metrics.go): increments the counter by n by
calling the wrapped instrument's Add with the same arguments. -/
def Counter.Add (c : Counter) (ctx : Context) (n : Int)
    (opts : List (String × String)) : AddCall :=
  c.counter.instrumentAdd ctx n opts

/-- Counter.Increment (metrics/metrics.go): adds 1 to the counter via
Counter.Add. -/
def Counter.Increment (c : Counter) (ctx : Context)
    (opts : List (String × String)) : AddCall :=
  c.Add ctx 1 opts

end Metrics

/-! ## Hex parsing (used by the W3C traceparent decoder) -/

/-- Is ch a lowercase hex digit?  The W3C trace-context encoding uses
lowercase hex only. -/
def isHexChar (ch : Char) : Bool :=
  (48 ≤ ch.toNat && ch.toNat ≤ 57) || (97 ≤ ch.toNat && ch.toNat ≤ 102)

/-- Value of one hex digit. -/
def hexVal (ch : Char) : Nat :=
  if ch.toNat ≤ 57 then ch.toNat - 48 else ch.toNat - 87

/-- Parse a lowercase fixed-width hex string, Option-valued. -/
def fromHex (s : String) : Option Nat :=
  if s.toList.all isHexChar then
    some (s.toList.foldl (fun n ch => n * 16 + hexVal ch) 0)
  else none

namespace Propagation

/-! ## Carriers (propagation/http.go, propagation/grpc.go,
propagation/kafka.go) and the key normalization of the maps behind them.

All three carriers are association lists of header key to value.  What
distinguishes them is the key normalization their backing structure
performs: net/http headers canonicalize MIME keys, grpc metadata
lowercases keys, Kafka header maps store keys verbatim. -/

/-- Set-or-replace in an association list (both http.Header.Set and
metadata.MD.Set replace the previous value for the key). -/
def assocSet (l : List (String × String)) (k v : String) : List (String × String) :=
  if l.any (fun p => p.1 = k) then
    l.map (fun p => if p.1 = k then (k, v) else p)
  else l ++ [(k, v)]

/-- First value for the key, "" when absent (the carriers return "" for a
missing key). -/
def assocGet (l : List (String × String)) (k : String) : String :=
  match l.find? (fun p => p.1 = k) with
  | some p => p.2
  | none => ""

/-- strings.ToLower as grpc metadata applies it to header keys (the keys
involved are ASCII, so mapping Char.toLower over the characters is
exact). -/
def lowerKey (s : String) : String :=
  String.mk (s.toList.map Char.toLower)

/-- textproto.CanonicalMIMEHeaderKey: uppercase the first letter and every
letter following a hyphen, lowercase the rest. -/
def canonicalMIMEHeaderKey (s : String) : String :=
  String.mk
    ((s.toList.foldl
        (fun (acc : List Char × Bool) ch =>
          let ch2 := if acc.2 then ch.toUpper else ch.toLower
          (acc.1 ++ [ch2], ch = '-'))
        ([], true)).1)

/-- Carrier operations over a backing association list: how Get and Set of
the concrete carrier normalize keys. -/
structure CarrierOps where
  normGet : String → String
  normSet : String → String

/-- Get through a carrier. -/
def CarrierOps.get (ops : CarrierOps) (l : List (String × String)) (k : String) : String :=
  assocGet l (ops.normGet k)

/-- Set through a carrier. -/
def CarrierOps.set (ops : CarrierOps) (l : List (String × String)) (k v : String) :
    List (String × String) :=
  assocSet l (ops.normSet k) v

/-- HTTPHeaderCarrier (propagation/http.go): http.Header.Get/Set
canonicalize the MIME header key. -/
def httpCarrier : CarrierOps :=
  { normGet := canonicalMIMEHeaderKey, normSet := canonicalMIMEHeaderKey }

/-- grpcMetadataCarrier (propagation/grpc.go): metadata.MD.Get/Set
lowercase the key. -/
def grpcCarrier : CarrierOps :=
  { normGet := lowerKey, normSet := lowerKey }

/-- KafkaHeaderCarrier (propagation/kafka.go): a plain map, keys stored
and looked up verbatim. -/
def kafkaCarrier : CarrierOps :=
  { normGet := id, normSet := id }

/-! ## The imported SDK's TraceContext and Baggage propagators.

The repository builds
propagation.NewCompositeTextMapPropagator(TraceContext{}, Baggage{}) at
every boundary; the encode/decode below models the otel-go propagation
package those calls delegate to. -/

/-- The traceparent header value: version 00, trace ID, span ID, and the
flags masked to the sampled bit, dash separated, lowercase hex. -/
def traceparentValue (sc : SpanContext) : String :=
  "00-" ++ toHexFixed (sc.traceID % 2 ^ 128) 32 ++ "-" ++
    toHexFixed (sc.spanID % 2 ^ 64) 16 ++ "-" ++
    toHexFixed (sc.traceFlags % 256 % 2) 2

/-- TraceContext.Inject: nothing when the span context is invalid;
otherwise tracestate (when non-empty) then traceparent. -/
def tcInject (ops : CarrierOps) (ctx : Context) (l : List (String × String)) :
    List (String × String) :=
  let sc := ctx.spanContext
  if !sc.isValid then l
  else
    let l2 := if sc.traceState ≠ "" then ops.set l "tracestate" sc.traceState else l
    ops.set l2 "traceparent" (traceparentValue sc)

/-- Parse a traceparent header value: four dash-separated lowercase hex
fields of widths 2, 32, 16, 2; the flags keep only the sampled bit. -/
def parseTraceparent (s : String) : Option SpanContext :=
  match s.splitOn "-" with
  | [ver, tid, sid, fl] =>
    if ver.length = 2 ∧ tid.length = 32 ∧ sid.length = 16 ∧ fl.length = 2 ∧ ver ≠ "ff" then
      match fromHex ver, fromHex tid, fromHex sid, fromHex fl with
      | some _, some t, some sp, some f =>
        some { traceID := t, spanID := sp, traceFlags := f % 2, traceState := "" }
      | _, _, _, _ => none
    else none
  | _ => none

/-- TraceContext.Extract: parse traceparent; when the result is a valid
span context, install it (with the carrier's tracestate) as the remote
span context, otherwise return ctx unchanged. -/
def tcExtract (ops : CarrierOps) (ctx : Context) (l : List (String × String)) : Context :=
  match parseTraceparent (ops.get l "traceparent") with
  | none => ctx
  | some sc =>
    let sc2 := { sc with traceState := ops.get l "tracestate" }
    if !sc2.isValid then ctx
    else { ctx with spanContext := sc2 }

/-- Baggage.Inject: writes the baggage header when the context's baggage
is non-empty. -/
def baggageInject (ops : CarrierOps) (ctx : Context) (l : List (String × String)) :
    List (String × String) :=
  if ctx.baggage ≠ "" then ops.set l "baggage" ctx.baggage else l

/-- Baggage.Extract: reads the baggage header; an empty value leaves ctx
unchanged. -/
def baggageExtract (ops : CarrierOps) (ctx : Context) (l : List (String × String)) : Context :=
  let b := ops.get l "baggage"
  if b = "" then ctx else { ctx with baggage := b }

/-- The two member propagators of the composite the repository builds. -/
inductive TextMapProp where
  | traceContext
  | baggage
deriving Repr, DecidableEq

/-- One member's Inject. -/
def TextMapProp.injectOne (p : TextMapProp) (ops : CarrierOps) (ctx : Context)
    (l : List (String × String)) : List (String × String) :=
  match p with
  | .traceContext => tcInject ops ctx l
  | .baggage => baggageInject ops ctx l

/-- One member's Extract. -/
def TextMapProp.extractOne (p : TextMapProp) (ops : CarrierOps) (ctx : Context)
    (l : List (String × String)) : Context :=
  match p with
  | .traceContext => tcExtract ops ctx l
  | .baggage => baggageExtract ops ctx l

/-- propagation.NewCompositeTextMapPropagator(...).Inject: each member
injects into the carrier in order. -/
def compositeInject (ps : List TextMapProp) (ops : CarrierOps) (ctx : Context)
    (l : List (String × String)) : List (String × String) :=
  ps.foldl (fun acc p => p.injectOne ops ctx acc) l

/-- propagation.NewCompositeTextMapPropagator(...).Extract: each member
extracts from the carrier in order, threading the context. -/
def compositeExtract (ps : List TextMapProp) (ops : CarrierOps) (ctx : Context)
    (l : List (String × String)) : Context :=
  ps.foldl (fun acc p => p.extractOne ops acc l) ctx

/-- The member list the repository passes at every boundary:
TraceContext{}, Baggage{}. -/
def tcBaggage : List TextMapProp := [TextMapProp.traceContext, TextMapProp.baggage]

/-! ## The six adapter functions of the propagation package. -/

/-- propagation.ExtractHTTP: extract through the HTTP header carrier with
a fresh composite TraceContext+Baggage propagator. -/
def ExtractHTTP (ctx : Context) (header : List (String × String)) : Context :=
  compositeExtract tcBaggage httpCarrier ctx header

/-- propagation.InjectHTTP: inject through the HTTP header carrier with a
fresh composite TraceContext+Baggage propagator. -/
def InjectHTTP (ctx : Context) (header : List (String × String)) :
    List (String × String) :=
  compositeInject tcBaggage httpCarrier ctx header

/-- propagation.ExtractGrpc: extract through the grpc metadata carrier. -/
def ExtractGrpc (ctx : Context) (md : List (String × String)) : Context :=
  compositeExtract tcBaggage grpcCarrier ctx md

/-- propagation.InjectGrpc: a nil metadata map is replaced by a fresh one,
then inject through the grpc metadata carrier and return the metadata. -/
def InjectGrpc (ctx : Context) (md : Option (List (String × String))) :
    List (String × String) :=
  let md2 := match md with
    | none => []
    | some m => m
  compositeInject tcBaggage grpcCarrier ctx md2

/-- propagation.ExtractKafka: nil headers leave ctx unchanged; otherwise
extract through the Kafka header carrier. -/
def ExtractKafka (ctx : Context) (headers : Option (List (String × String))) : Context :=
  match headers with
  | none => ctx
  | some hs => compositeExtract tcBaggage kafkaCarrier ctx hs

/-- propagation.InjectKafka: inject into a fresh map through the Kafka
header carrier and return it. -/
def InjectKafka (ctx : Context) : List (String × String) :=
  compositeInject tcBaggage kafkaCarrier ctx []

end Propagation

/-! ## Resources (models go.opentelemetry.io/otel/sdk/resource as a
syntax tree, so that which operation constructed a resource stays
visible) -/

/-- A resource value: resource.New / NewWithAttributes with a schema URL
and attributes, resource.Default(), or resource.Merge of two resources. -/
inductive Resource where
  | new (schemaURL : String) (attrs : List (String × String))
  | defaultRes
  | merge (a b : Resource)
deriving Repr, DecidableEq

/-- The semconv v1.24.0 schema URL imported by observability/resource.go
and by tracing. -/
def semconvSchemaURL : String := "https://opentelemetry.io/schemas/1.24.0"

namespace Observability

/-- The attribute list observability.NewResource builds: service.name and
deployment.environment always, service.version appended exactly when
cfg.ServiceVersion is non-empty (observability/resource.go). -/
def NewResourceAttrs (cfg : Config) : List (String × String) :=
  let attrs := [("service.name", cfg.ServiceName),
                ("deployment.environment", cfg.Environment)]
  if cfg.ServiceVersion ≠ "" then attrs ++ [("service.version", cfg.ServiceVersion)]
  else attrs

/-- observability.NewResource: the single OpenTelemetry Resource for the
process, resource.New with the semconv schema URL and the attribute list
above.  (With only static options resource.New cannot fail, so the error
result of the Go signature is always nil and elided here.) -/
def NewResource (cfg : Config) : Resource :=
  Resource.new semconvSchemaURL (NewResourceAttrs cfg)

end Observability

namespace Tracing

/-- const tracerName in tracing/http.go. -/
def tracerName : String := "mhc-infra-observability"

/-- An SDK tracer provider as Init builds it: its resource and the
endpoint of the OTLP exporter behind its batch span processor. -/
structure TracerProvider where
  res : Resource
  batcherEndpoint : String
deriving Repr, DecidableEq

/-- A tracer handle: the noop provider's tracer, a tracer obtained from a
concrete SDK provider, or the tracer of the SDK's default delegating
global provider (what otel.Tracer yields before SetTracerProvider). -/
inductive TracerHandle where
  | noopT (name : String)
  | fromProvider (tp : TracerProvider) (name : String)
  | globalDelegate (name : String)
deriving Repr, DecidableEq

/-- The process-wide mutable state the library touches: the otel global
tracer provider and text-map propagator, and the tracing package's
defaultTracer variable. -/
structure Globals where
  tracerProvider : Option TracerProvider
  textMapPropagator : Option (List Propagation.TextMapProp)
  defaultTracer : Option TracerHandle
deriving Repr, DecidableEq

/-- The state before any initialization has run. -/
def Globals.initial : Globals :=
  { tracerProvider := none, textMapPropagator := none, defaultTracer := none }

/-- otel.Tracer(name): reads the global tracer provider and asks it for a
tracer.  The Bool records that the global provider was consulted. -/
def otelTracer (g : Globals) (name : String) : TracerHandle × Bool :=
  match g.tracerProvider with
  | some tp => (TracerHandle.fromProvider tp name, true)
  | none => (TracerHandle.globalDelegate name, true)

/-- tracing.Tracer (tracer.go): returns the package's defaultTracer when
Init has set it, and a noop tracer otherwise; the global provider is not
consulted in either case. -/
def Tracer (g : Globals) : TracerHandle × Bool :=
  match g.defaultTracer with
  | some t => (t, false)
  | none => (TracerHandle.noopT tracerName, false)

/-- The tracer acquisition the HTTP middleware performs per request
(tracing/http.go: otel.Tracer(tracerName)). -/
def MiddlewareTracer (g : Globals) : TracerHandle × Bool :=
  otelTracer g tracerName

/-- The tracer acquisition of the gRPC unary server interceptor
(tracing/grpc.go: otel.Tracer(tracerName)). -/
def UnaryServerInterceptorTracer (g : Globals) : TracerHandle × Bool :=
  otelTracer g tracerName

/-- The tracer acquisition of the gRPC unary client interceptor
(tracing/grpc.go: otel.Tracer(tracerName)). -/
def UnaryClientInterceptorTracer (g : Globals) : TracerHandle × Bool :=
  otelTracer g tracerName

/-- The tracer acquisition of StartKafkaConsumerSpan (tracing/kafka.go:
otel.Tracer(tracerName)). -/
def StartKafkaConsumerSpanTracer (g : Globals) : TracerHandle × Bool :=
  otelTracer g tracerName

/-- The tracer acquisition of StartKafkaProducerSpan (tracing/kafka.go:
otel.Tracer(tracerName)). -/
def StartKafkaProducerSpanTracer (g : Globals) : TracerHandle × Bool :=
  otelTracer g tracerName

/-- Observable events of the initialization path. -/
inductive Event where
  | dial (endpoint : String)
  | newOtlpExporter
  | connClose
  | exporterShutdown
  | resourceMerge
  | newTracerProvider
  | setTracerProvider
  | setTextMapPropagator
  | getTracer (name : String)
  | tracerProviderShutdown (endpoint : String)
deriving Repr, DecidableEq

/-- Outcomes of the fallible external steps Init performs (dialing the
collector, constructing the OTLP exporter, resource.Merge). -/
structure InitOracle where
  dialOk : Bool
  exporterOk : Bool
  mergeOk : Bool
deriving Repr, DecidableEq

/-- Result of an Init run: the shutdown function (modelled by the provider
it closes over; none is Go's nil), the error, the resulting global state
and the event trace. -/
structure InitResult where
  shutdown : Option TracerProvider
  err : Option String
  globals : Globals
  trace : List Event
deriving Repr, DecidableEq

/-- Running the shutdown function returned by Init: it shuts down the
tracer provider it closed over. -/
def runShutdown (tp : TracerProvider) : List Event :=
  [Event.tracerProviderShutdown tp.batcherEndpoint]

/-- tracing.Init of v0.1.2 (the two-argument variant, README.md lines
218-264): dial the endpoint, build the OTLP exporter, merge
resource.Default() with the config attributes, build the provider with a
batcher, register it and the composite propagator globally.  Each failure
returns before any global registration. -/
def InitV012 (o : InitOracle) (cfg : Config) (g : Globals) : InitResult :=
  let ev := [Event.dial cfg.OtelEndpoint]
  if !o.dialOk then
    { shutdown := none, err := some "create OTLP gRPC connection",
      globals := g, trace := ev }
  else
    let ev := ev ++ [Event.newOtlpExporter]
    if !o.exporterOk then
      { shutdown := none, err := some "create OTLP trace exporter",
        globals := g, trace := ev ++ [Event.connClose] }
    else
      let ev := ev ++ [Event.resourceMerge]
      if !o.mergeOk then
        { shutdown := none, err := some "create resource",
          globals := g, trace := ev ++ [Event.exporterShutdown] }
      else
        let res := Resource.merge Resource.defaultRes
          (Resource.new semconvSchemaURL
            [("service.name", cfg.ServiceName),
             ("deployment.environment", cfg.Environment)])
        let tp : TracerProvider := { res := res, batcherEndpoint := cfg.OtelEndpoint }
        { shutdown := some tp, err := none,
          globals := { g with tracerProvider := some tp,
                              textMapPropagator := some Propagation.tcBaggage },
          trace := ev ++ [Event.newTracerProvider, Event.setTracerProvider,
                          Event.setTextMapPropagator] }

/-- tracing.Init of the resource-taking variant (tracer.go, README.md
lines 311-348): dial, build the exporter, build the provider over the
passed-in resource, register the provider and propagator globally, then
obtain the package tracer from the provider just registered. -/
def Init (o : InitOracle) (res : Resource) (cfg : Config) (g : Globals) : InitResult :=
  let ev := [Event.dial cfg.OtelEndpoint]
  if !o.dialOk then
    { shutdown := none, err := some "create OTLP gRPC connection",
      globals := g, trace := ev }
  else
    let ev := ev ++ [Event.newOtlpExporter]
    if !o.exporterOk then
      { shutdown := none, err := some "create OTLP trace exporter",
        globals := g, trace := ev ++ [Event.connClose] }
    else
      let tp : TracerProvider := { res := res, batcherEndpoint := cfg.OtelEndpoint }
      { shutdown := some tp, err := none,
        globals := { g with tracerProvider := some tp,
                            textMapPropagator := some Propagation.tcBaggage,
                            defaultTracer := some (TracerHandle.fromProvider tp tracerName) },
        trace := ev ++ [Event.newTracerProvider, Event.setTracerProvider,
                        Event.setTextMapPropagator, Event.getTracer tracerName] }

end Tracing

namespace Observability

/-- The tracer acquisition of observability.StartSpan (the facade):
otel.Tracer("mhc-infra-observability"). -/
def StartSpanTracer (g : Tracing.Globals) : Tracing.TracerHandle × Bool :=
  Tracing.otelTracer g "mhc-infra-observability"

/-- Status codes of go.opentelemetry.io/otel/codes. -/
inductive OtelStatusCode where
  | Unset
  | Ok
  | Error
deriving Repr, DecidableEq

/-- Effects applied to the span of the current context. -/
inductive SpanEffect where
  | RecordError (msg : String)
  | SetStatus (code : OtelStatusCode) (description : String)
  | SetAttribute (key value : String)
deriving Repr, DecidableEq

/-- observability.HandleError: returns immediately on a nil error;
otherwise records the error on the span from ctx, sets status Error, sets
the "error" attribute, and logs "error observed" at error level through
the trace-aware logger.  The pair collects the span effects and the log
lines emitted. -/
def HandleError (env : Env) (ctx : Context) (err : Option String) :
    List SpanEffect × List Logging.LogLine :=
  match err with
  | none => ([], [])
  | some e =>
    ([SpanEffect.RecordError e,
      SpanEffect.SetStatus OtelStatusCode.Error e,
      SpanEffect.SetAttribute "error" e],
     [(Logging.LoggerFromEnv env).Error ctx "error observed" [("error", e)]])

end Observability

/-! ## Sample values used to evaluate the embedding at concrete inputs -/

namespace Samples

/-- A config with no service version. -/
def cfgNoVersion : Config :=
  { ServiceName := "svc", ServiceVersion := "", Environment := "dev",
    OtelEndpoint := "collector:4317" }

/-- A config with a service version. -/
def cfgWithVersion : Config :=
  { ServiceName := "svc", ServiceVersion := "1.2.3", Environment := "dev",
    OtelEndpoint := "collector:4317" }

/-- All external steps of Init succeed. -/
def allOk : Tracing.InitOracle := { dialOk := true, exporterOk := true, mergeOk := true }

/-- Dialing the collector fails. -/
def dialFail : Tracing.InitOracle := { dialOk := false, exporterOk := true, mergeOk := true }

/-- The exporter constructor fails. -/
def exporterFail : Tracing.InitOracle := { dialOk := true, exporterOk := false, mergeOk := true }

/-- An environment with only OTEL_SERVICE_NAME set. -/
def envSvc : Env := fun k => if k = "OTEL_SERVICE_NAME" then "svc" else ""

/-- A context with a valid span context and baggage. -/
def ctxSpan : Context :=
  { spanContext := { traceID := 255, spanID := 1, traceFlags := 1, traceState := "a=b" },
    baggage := "k=v" }

end Samples

end Mhc

/-! ## Helper lemmas -/

open Mhc in
/-- Fixed-width hex strings have the requested length. -/
theorem toHexFixed_length (n width : Nat) : (toHexFixed n width).length = width := by
  show (((List.range width).reverse).map (fun i => hexDigit (n / 16 ^ i % 16))).length = width
  simp

open Mhc in
/-- A fixed-width hex string of positive width is non-empty. -/
theorem toHexFixed_ne_empty (n width : Nat) (h : 0 < width) : toHexFixed n width ≠ "" := by
  intro hc
  have hlen := toHexFixed_length n width
  rw [hc] at hlen
  simp at hlen
  omega

/-- MIME canonicalization of the traceparent key. -/
theorem canonical_traceparent :
    Mhc.Propagation.canonicalMIMEHeaderKey "traceparent" = "Traceparent" := rfl

/-- MIME canonicalization of the tracestate key. -/
theorem canonical_tracestate :
    Mhc.Propagation.canonicalMIMEHeaderKey "tracestate" = "Tracestate" := rfl

/-- MIME canonicalization of the baggage key. -/
theorem canonical_baggage :
    Mhc.Propagation.canonicalMIMEHeaderKey "baggage" = "Baggage" := rfl

/-- Lowering the canonical traceparent key gives back the wire key. -/
theorem lower_canonical_traceparent :
    Mhc.Propagation.lowerKey "Traceparent" = "traceparent" := rfl

/-- Lowering the canonical tracestate key gives back the wire key. -/
theorem lower_canonical_tracestate :
    Mhc.Propagation.lowerKey "Tracestate" = "tracestate" := rfl

/-- Lowering the canonical baggage key gives back the wire key. -/
theorem lower_canonical_baggage :
    Mhc.Propagation.lowerKey "Baggage" = "baggage" := rfl

/-- The traceparent key is already lowercase. -/
theorem lower_traceparent :
    Mhc.Propagation.lowerKey "traceparent" = "traceparent" := rfl

/-- The tracestate key is already lowercase. -/
theorem lower_tracestate :
    Mhc.Propagation.lowerKey "tracestate" = "tracestate" := rfl

/-- The baggage key is already lowercase. -/
theorem lower_baggage :
    Mhc.Propagation.lowerKey "baggage" = "baggage" := rfl

/-! ## Claim theorems -/

/-- C7: the metrics counter is a one-method wrapper over the SDK's counter
instrument: Increment(ctx, opts) performs exactly Add(ctx, 1, opts), and
Add itself passes through directly to the underlying instrument's Add with
the same context, amount and options. -/
theorem c7_counter_increment_is_add_one (c : Mhc.Metrics.Counter) (ctx : Mhc.Context)
    (opts : List (String × String)) :
    c.Increment ctx opts = c.Add ctx 1 opts ∧
    (∀ n, c.Add ctx n opts = c.counter.instrumentAdd ctx n opts) :=
  ⟨rfl, fun _ => rfl⟩

/-- C9: HandleError with a nil error is a complete no-op (no span effect,
no log line); with a non-nil error it records the error, sets status
Error, sets the "error" attribute and logs the error; an observable effect
occurs precisely when the error is non-nil. -/
theorem c9_handle_error_noop_iff (env : Mhc.Env) (ctx : Mhc.Context) (err : Option String) :
    Mhc.Observability.HandleError env ctx none = ([], []) ∧
    (∀ e, Mhc.Observability.HandleError env ctx (some e) =
      ([Mhc.Observability.SpanEffect.RecordError e,
        Mhc.Observability.SpanEffect.SetStatus Mhc.Observability.OtelStatusCode.Error e,
        Mhc.Observability.SpanEffect.SetAttribute "error" e],
       [(Mhc.Logging.LoggerFromEnv env).Error ctx "error observed" [("error", e)]])) ∧
    (((Mhc.Observability.HandleError env ctx err).1 = [] ∧
      (Mhc.Observability.HandleError env ctx err).2 = []) ↔ err = none) := by
  refine ⟨rfl, fun e => rfl, ?_⟩
  cases err <;> simp [Mhc.Observability.HandleError]

/-- C10: ParseLevel is total and defaults to Info: every string outside the
six exact case variants maps to LevelInfo (so does "Debug"), and an unset
LOG_LEVEL yields an Info-level logger via LoggerFromEnv. -/
theorem c10_parse_level_defaults_to_info (s : String) (env : Mhc.Env)
    (hs : ¬(s = "debug" ∨ s = "DEBUG" ∨ s = "info" ∨ s = "INFO" ∨ s = "error" ∨ s = "ERROR"))
    (henv : env "LOG_LEVEL" = "") :
    Mhc.Logging.ParseLevel s = Mhc.Logging.Level.LevelInfo ∧
    Mhc.Logging.ParseLevel "Debug" = Mhc.Logging.Level.LevelInfo ∧
    Mhc.Logging.LoggerFromEnv env = Mhc.Logging.New Mhc.Logging.Level.LevelInfo := by
  push_neg at hs
  obtain ⟨h1, h2, h3, h4, h5, h6⟩ := hs
  refine ⟨?_, rfl, ?_⟩
  · simp [Mhc.Logging.ParseLevel, h1, h2, h3, h4, h5, h6]
  · unfold Mhc.Logging.LoggerFromEnv
    rw [henv]
    decide

/-- Witness for C10 at the concrete input "Debug" and an empty
environment. -/
theorem c10_parse_level_defaults_to_info_witness :
    Mhc.Logging.ParseLevel "Debug" = Mhc.Logging.Level.LevelInfo ∧
    Mhc.Logging.ParseLevel "Debug" = Mhc.Logging.Level.LevelInfo ∧
    Mhc.Logging.LoggerFromEnv (fun _ => "") = Mhc.Logging.New Mhc.Logging.Level.LevelInfo :=
  c10_parse_level_defaults_to_info "Debug" (fun _ => "") (by decide) rfl

/-- C5: Load reads exactly the four OTEL_* variables (two environments
agreeing on those four yield the same Config), defaults apply exactly when
a variable is unset or empty (ServiceName "unknown-service", Environment
"development", OtelEndpoint "localhost:4317"), each field equals the
variable's value when set, and ServiceVersion is passed through with no
default. -/
theorem c5_load_reads_four_env_vars (env env2 : Mhc.Env)
    (hagree : ∀ k, k ∈ ["OTEL_SERVICE_NAME", "OTEL_SERVICE_VERSION",
      "OTEL_ENVIRONMENT", "OTEL_EXPORTER_OTLP_ENDPOINT"] → env k = env2 k) :
    Mhc.Load env = Mhc.Load env2 ∧
    (Mhc.Load env).ServiceName =
      (if env "OTEL_SERVICE_NAME" = "" then "unknown-service"
       else env "OTEL_SERVICE_NAME") ∧
    (Mhc.Load env).ServiceVersion = env "OTEL_SERVICE_VERSION" ∧
    (Mhc.Load env).Environment =
      (if env "OTEL_ENVIRONMENT" = "" then "development"
       else env "OTEL_ENVIRONMENT") ∧
    (Mhc.Load env).OtelEndpoint =
      (if env "OTEL_EXPORTER_OTLP_ENDPOINT" = "" then "localhost:4317"
       else env "OTEL_EXPORTER_OTLP_ENDPOINT") := by
  have h1 := hagree "OTEL_SERVICE_NAME" (by simp)
  have h2 := hagree "OTEL_SERVICE_VERSION" (by simp)
  have h3 := hagree "OTEL_ENVIRONMENT" (by simp)
  have h4 := hagree "OTEL_EXPORTER_OTLP_ENDPOINT" (by simp)
  refine ⟨?_, rfl, rfl, rfl, rfl⟩
  simp only [Mhc.Load, h1, h2, h3, h4]

/-- Witness for C5 at an environment setting only OTEL_SERVICE_NAME. -/
theorem c5_load_reads_four_env_vars_witness :
    Mhc.Load Mhc.Samples.envSvc = Mhc.Load Mhc.Samples.envSvc ∧
    (Mhc.Load Mhc.Samples.envSvc).ServiceName =
      (if Mhc.Samples.envSvc "OTEL_SERVICE_NAME" = "" then "unknown-service"
       else Mhc.Samples.envSvc "OTEL_SERVICE_NAME") ∧
    (Mhc.Load Mhc.Samples.envSvc).ServiceVersion =
      Mhc.Samples.envSvc "OTEL_SERVICE_VERSION" ∧
    (Mhc.Load Mhc.Samples.envSvc).Environment =
      (if Mhc.Samples.envSvc "OTEL_ENVIRONMENT" = "" then "development"
       else Mhc.Samples.envSvc "OTEL_ENVIRONMENT") ∧
    (Mhc.Load Mhc.Samples.envSvc).OtelEndpoint =
      (if Mhc.Samples.envSvc "OTEL_EXPORTER_OTLP_ENDPOINT" = "" then "localhost:4317"
       else Mhc.Samples.envSvc "OTEL_EXPORTER_OTLP_ENDPOINT") :=
  c5_load_reads_four_env_vars Mhc.Samples.envSvc Mhc.Samples.envSvc (fun _ _ => rfl)

/-- C6: FromContext returns the current span's trace and span IDs as hex
strings when the span context is valid and zero values otherwise; WithTrace
appends a trace_id attribute exactly when the trace ID is non-empty and a
span_id attribute exactly when the span ID is non-empty, and returns the
inner logger unenriched when both are empty; both IDs are empty precisely
when the span context is invalid. -/
theorem c6_logger_trace_enrichment (ctx : Mhc.Context) (l : Mhc.Logging.Logger) :
    (ctx.spanContext.isValid = true →
      Mhc.Logging.FromContext ctx =
        { TraceID := Mhc.toHexFixed (ctx.spanContext.traceID % 2 ^ 128) 32,
          SpanID := Mhc.toHexFixed (ctx.spanContext.spanID % 2 ^ 64) 16 }) ∧
    (ctx.spanContext.isValid = false →
      Mhc.Logging.FromContext ctx = { TraceID := "", SpanID := "" }) ∧
    (((Mhc.Logging.FromContext ctx).TraceID = "" ∧
      (Mhc.Logging.FromContext ctx).SpanID = "") ↔ ctx.spanContext.isValid = false) ∧
    ((l.WithTrace ctx).attrs = l.inner.attrs ++
      ((if (Mhc.Logging.FromContext ctx).TraceID ≠ "" then
          [("trace_id", (Mhc.Logging.FromContext ctx).TraceID)] else []) ++
       (if (Mhc.Logging.FromContext ctx).SpanID ≠ "" then
          [("span_id", (Mhc.Logging.FromContext ctx).SpanID)] else []))) ∧
    ((Mhc.Logging.FromContext ctx).TraceID = "" ∧
      (Mhc.Logging.FromContext ctx).SpanID = "" → l.WithTrace ctx = l.inner) := by
  have hiff : ((Mhc.Logging.FromContext ctx).TraceID = "" ∧
      (Mhc.Logging.FromContext ctx).SpanID = "") ↔ ctx.spanContext.isValid = false := by
    cases hv : ctx.spanContext.isValid with
    | false => simp [Mhc.Logging.FromContext, hv]
    | true =>
      simp [Mhc.Logging.FromContext, hv]
      intro hc
      exact absurd hc (toHexFixed_ne_empty _ 32 (by omega))
  refine ⟨?_, ?_, hiff, ?_, ?_⟩
  · intro hv; simp [Mhc.Logging.FromContext, hv]
  · intro hv; simp [Mhc.Logging.FromContext, hv]
  · by_cases hc : (Mhc.Logging.FromContext ctx).TraceID = "" ∧
        (Mhc.Logging.FromContext ctx).SpanID = ""
    · simp [Mhc.Logging.Logger.WithTrace, hc.1, hc.2]
    · simp only [Mhc.Logging.Logger.WithTrace, Mhc.Logging.SlogLogger.With, if_neg hc]
  · intro hc
    simp [Mhc.Logging.Logger.WithTrace, hc.1, hc.2]

/-- C1: the cited claim holds for tracing.Tracer (a noop tracer, the global
provider untouched, before Init), but every span-creating operation of the
library — the facade's StartSpan, the HTTP middleware, both gRPC
interceptors and both Kafka span helpers — acquires its tracer through
otel.Tracer, which consults the global tracer provider even in the
pre-Init state (the Bool component records that the global provider was
read). -/
theorem c1_pre_init_tracer_acquisition :
    Mhc.Tracing.Tracer Mhc.Tracing.Globals.initial =
      (Mhc.Tracing.TracerHandle.noopT Mhc.Tracing.tracerName, false) ∧
    (Mhc.Observability.StartSpanTracer Mhc.Tracing.Globals.initial).2 = true ∧
    (Mhc.Tracing.MiddlewareTracer Mhc.Tracing.Globals.initial).2 = true ∧
    (Mhc.Tracing.UnaryServerInterceptorTracer Mhc.Tracing.Globals.initial).2 = true ∧
    (Mhc.Tracing.UnaryClientInterceptorTracer Mhc.Tracing.Globals.initial).2 = true ∧
    (Mhc.Tracing.StartKafkaConsumerSpanTracer Mhc.Tracing.Globals.initial).2 = true ∧
    (Mhc.Tracing.StartKafkaProducerSpanTracer Mhc.Tracing.Globals.initial).2 = true :=
  ⟨rfl, rfl, rfl, rfl, rfl, rfl, rfl⟩

/-- C2: NewResource builds service.name and deployment.environment always
and service.version exactly when ServiceVersion is non-empty (shown at a
version-less and a versioned config, and as an iff for every config); but
the v0.1.2 tracing.Init also constructs a resource, merging
resource.Default() with its own attribute pair, and registers a provider
carrying that merged resource rather than the one NewResource builds. -/
theorem c2_new_resource_attrs_and_second_construction :
    Mhc.Observability.NewResourceAttrs Mhc.Samples.cfgNoVersion =
      [("service.name", "svc"), ("deployment.environment", "dev")] ∧
    Mhc.Observability.NewResourceAttrs Mhc.Samples.cfgWithVersion =
      [("service.name", "svc"), ("deployment.environment", "dev"),
       ("service.version", "1.2.3")] ∧
    (∀ cfg : Mhc.Config,
      (("service.version", cfg.ServiceVersion) ∈ Mhc.Observability.NewResourceAttrs cfg ↔
        cfg.ServiceVersion ≠ "") ∧
      ("service.name", cfg.ServiceName) ∈ Mhc.Observability.NewResourceAttrs cfg ∧
      ("deployment.environment", cfg.Environment) ∈ Mhc.Observability.NewResourceAttrs cfg) ∧
    Mhc.Tracing.Event.resourceMerge ∈
      (Mhc.Tracing.InitV012 Mhc.Samples.allOk Mhc.Samples.cfgNoVersion
        Mhc.Tracing.Globals.initial).trace ∧
    (Mhc.Tracing.InitV012 Mhc.Samples.allOk Mhc.Samples.cfgNoVersion
        Mhc.Tracing.Globals.initial).globals.tracerProvider =
      some { res := Mhc.Resource.merge Mhc.Resource.defaultRes
               (Mhc.Resource.new Mhc.semconvSchemaURL
                 [("service.name", "svc"), ("deployment.environment", "dev")]),
             batcherEndpoint := "collector:4317" } := by
  refine ⟨rfl, rfl, ?_, by decide, by decide⟩
  intro cfg
  refine ⟨?_, ?_, ?_⟩
  · by_cases hv : cfg.ServiceVersion = "" <;>
      simp [Mhc.Observability.NewResourceAttrs, hv]
  · by_cases hv : cfg.ServiceVersion = "" <;>
      simp [Mhc.Observability.NewResourceAttrs, hv]
  · by_cases hv : cfg.ServiceVersion = "" <;>
      simp [Mhc.Observability.NewResourceAttrs, hv]

/-- C3 counterexample: on a fully successful run, the v0.1.2 tracer
initializer's event trace is not exactly the three claimed steps (dial,
exporter-with-batcher construction, provider registration): it also merges
a resource and registers the global text-map propagator. -/
theorem c3_init_not_exactly_three_steps :
    ¬((Mhc.Tracing.InitV012 Mhc.Samples.allOk Mhc.Samples.cfgNoVersion
        Mhc.Tracing.Globals.initial).trace =
      [Mhc.Tracing.Event.dial "collector:4317", Mhc.Tracing.Event.newOtlpExporter,
       Mhc.Tracing.Event.newTracerProvider, Mhc.Tracing.Event.setTracerProvider]) := by
  decide

/-- C3 amended: on every successful run the v0.1.2 tracer initializer
performs, in order: dial cfg.OtelEndpoint, construct the OTLP exporter
attached to a batch span processor, merge resource.Default() with its own
service attributes, construct the provider, register it as the global
tracer provider, and register the composite text-map propagator; it returns
a nil error and a non-nil shutdown function, the provider it registered is
the one the shutdown function closes over, and running the shutdown shuts
that provider down. -/
theorem c3_init_success_steps (o : Mhc.Tracing.InitOracle) (cfg : Mhc.Config)
    (g : Mhc.Tracing.Globals)
    (hd : o.dialOk = true) (he : o.exporterOk = true) (hm : o.mergeOk = true) :
    (Mhc.Tracing.InitV012 o cfg g).trace =
      [Mhc.Tracing.Event.dial cfg.OtelEndpoint, Mhc.Tracing.Event.newOtlpExporter,
       Mhc.Tracing.Event.resourceMerge, Mhc.Tracing.Event.newTracerProvider,
       Mhc.Tracing.Event.setTracerProvider, Mhc.Tracing.Event.setTextMapPropagator] ∧
    (Mhc.Tracing.InitV012 o cfg g).err = none ∧
    (Mhc.Tracing.InitV012 o cfg g).shutdown ≠ none ∧
    (Mhc.Tracing.InitV012 o cfg g).globals.tracerProvider =
      (Mhc.Tracing.InitV012 o cfg g).shutdown ∧
    (Mhc.Tracing.InitV012 o cfg g).globals.textMapPropagator =
      some Mhc.Propagation.tcBaggage ∧
    (∀ tp, (Mhc.Tracing.InitV012 o cfg g).shutdown = some tp →
      Mhc.Tracing.runShutdown tp =
        [Mhc.Tracing.Event.tracerProviderShutdown cfg.OtelEndpoint]) := by
  refine ⟨?_, ?_, ?_, ?_, ?_, ?_⟩ <;>
    simp [Mhc.Tracing.InitV012, hd, he, hm, Mhc.Tracing.runShutdown]

/-- Witness for C3's amended theorem on an all-success oracle and a
concrete config. -/
theorem c3_init_success_steps_witness :
    (Mhc.Tracing.InitV012 Mhc.Samples.allOk Mhc.Samples.cfgNoVersion
        Mhc.Tracing.Globals.initial).trace =
      [Mhc.Tracing.Event.dial Mhc.Samples.cfgNoVersion.OtelEndpoint,
       Mhc.Tracing.Event.newOtlpExporter,
       Mhc.Tracing.Event.resourceMerge, Mhc.Tracing.Event.newTracerProvider,
       Mhc.Tracing.Event.setTracerProvider, Mhc.Tracing.Event.setTextMapPropagator] ∧
    (Mhc.Tracing.InitV012 Mhc.Samples.allOk Mhc.Samples.cfgNoVersion
        Mhc.Tracing.Globals.initial).err = none ∧
    (Mhc.Tracing.InitV012 Mhc.Samples.allOk Mhc.Samples.cfgNoVersion
        Mhc.Tracing.Globals.initial).shutdown ≠ none ∧
    (Mhc.Tracing.InitV012 Mhc.Samples.allOk Mhc.Samples.cfgNoVersion
        Mhc.Tracing.Globals.initial).globals.tracerProvider =
      (Mhc.Tracing.InitV012 Mhc.Samples.allOk Mhc.Samples.cfgNoVersion
        Mhc.Tracing.Globals.initial).shutdown ∧
    (Mhc.Tracing.InitV012 Mhc.Samples.allOk Mhc.Samples.cfgNoVersion
        Mhc.Tracing.Globals.initial).globals.textMapPropagator =
      some Mhc.Propagation.tcBaggage ∧
    (∀ tp, (Mhc.Tracing.InitV012 Mhc.Samples.allOk Mhc.Samples.cfgNoVersion
        Mhc.Tracing.Globals.initial).shutdown = some tp →
      Mhc.Tracing.runShutdown tp =
        [Mhc.Tracing.Event.tracerProviderShutdown
          Mhc.Samples.cfgNoVersion.OtelEndpoint]) :=
  c3_init_success_steps Mhc.Samples.allOk Mhc.Samples.cfgNoVersion
    Mhc.Tracing.Globals.initial rfl rfl rfl

/-- C8: both variants of tracing.Init are atomic on failure: when dialing
fails, or dialing succeeds and constructing the OTLP exporter fails, Init
returns a non-nil error together with a nil shutdown function and the
global state (tracer provider, text-map propagator, default tracer) is
exactly what it was before the call. -/
theorem c8_init_atomic_on_failure (o : Mhc.Tracing.InitOracle) (res : Mhc.Resource)
    (cfg : Mhc.Config) (g : Mhc.Tracing.Globals)
    (h : o.dialOk = false ∨ (o.dialOk = true ∧ o.exporterOk = false)) :
    ((Mhc.Tracing.Init o res cfg g).err ≠ none ∧
     (Mhc.Tracing.Init o res cfg g).shutdown = none ∧
     (Mhc.Tracing.Init o res cfg g).globals = g) ∧
    ((Mhc.Tracing.InitV012 o cfg g).err ≠ none ∧
     (Mhc.Tracing.InitV012 o cfg g).shutdown = none ∧
     (Mhc.Tracing.InitV012 o cfg g).globals = g) := by
  rcases h with h | ⟨h1, h2⟩
  · refine ⟨⟨?_, ?_, ?_⟩, ?_, ?_, ?_⟩ <;>
      simp [Mhc.Tracing.Init, Mhc.Tracing.InitV012, h]
  · refine ⟨⟨?_, ?_, ?_⟩, ?_, ?_, ?_⟩ <;>
      simp [Mhc.Tracing.Init, Mhc.Tracing.InitV012, h1, h2]

/-- Witness for C8 at a failing dial with a concrete config, resource and
the pre-Init global state. -/
theorem c8_init_atomic_on_failure_witness :
    ((Mhc.Tracing.Init Mhc.Samples.dialFail Mhc.Resource.defaultRes
        Mhc.Samples.cfgNoVersion Mhc.Tracing.Globals.initial).err ≠ none ∧
     (Mhc.Tracing.Init Mhc.Samples.dialFail Mhc.Resource.defaultRes
        Mhc.Samples.cfgNoVersion Mhc.Tracing.Globals.initial).shutdown = none ∧
     (Mhc.Tracing.Init Mhc.Samples.dialFail Mhc.Resource.defaultRes
        Mhc.Samples.cfgNoVersion Mhc.Tracing.Globals.initial).globals =
       Mhc.Tracing.Globals.initial) ∧
    ((Mhc.Tracing.InitV012 Mhc.Samples.dialFail Mhc.Samples.cfgNoVersion
        Mhc.Tracing.Globals.initial).err ≠ none ∧
     (Mhc.Tracing.InitV012 Mhc.Samples.dialFail Mhc.Samples.cfgNoVersion
        Mhc.Tracing.Globals.initial).shutdown = none ∧
     (Mhc.Tracing.InitV012 Mhc.Samples.dialFail Mhc.Samples.cfgNoVersion
        Mhc.Tracing.Globals.initial).globals = Mhc.Tracing.Globals.initial) :=
  c8_init_atomic_on_failure Mhc.Samples.dialFail Mhc.Resource.defaultRes
    Mhc.Samples.cfgNoVersion Mhc.Tracing.Globals.initial (Or.inl rfl)

/-- The composite TraceContext+Baggage extract runs the TraceContext
extract and then the Baggage extract. -/
theorem compositeExtract_pair (ops : Mhc.Propagation.CarrierOps)
    (l : List (String × String)) (ctx : Mhc.Context) :
    Mhc.Propagation.compositeExtract Mhc.Propagation.tcBaggage ops ctx l =
      Mhc.Propagation.baggageExtract ops (Mhc.Propagation.tcExtract ops ctx l) l := rfl

/-- What InjectHTTP writes, as a function of the context: tracestate (when
valid and non-empty) and traceparent under canonical MIME keys, then
baggage when non-empty. -/
theorem injectHTTP_eq (ctx : Mhc.Context) :
    Mhc.Propagation.InjectHTTP ctx [] =
      (if ctx.spanContext.isValid then
        (if ctx.spanContext.traceState ≠ "" then
          [("Tracestate", ctx.spanContext.traceState)] else []) ++
        [("Traceparent", Mhc.Propagation.traceparentValue ctx.spanContext)]
       else []) ++
      (if ctx.baggage ≠ "" then [("Baggage", ctx.baggage)] else []) := by
  by_cases hv : ctx.spanContext.isValid <;>
    by_cases hts : ctx.spanContext.traceState = "" <;>
    by_cases hb : ctx.baggage = "" <;>
    simp [Mhc.Propagation.InjectHTTP, Mhc.Propagation.compositeInject,
      Mhc.Propagation.tcBaggage, Mhc.Propagation.TextMapProp.injectOne,
      Mhc.Propagation.tcInject, Mhc.Propagation.baggageInject,
      Mhc.Propagation.httpCarrier, Mhc.Propagation.CarrierOps.set,
      Mhc.Propagation.assocSet,
      canonical_traceparent, canonical_tracestate, canonical_baggage,
      hv, hts, hb]

/-- What InjectGrpc writes into fresh metadata: the same entries under
lowercased keys. -/
theorem injectGrpc_eq (ctx : Mhc.Context) :
    Mhc.Propagation.InjectGrpc ctx (some []) =
      (if ctx.spanContext.isValid then
        (if ctx.spanContext.traceState ≠ "" then
          [("tracestate", ctx.spanContext.traceState)] else []) ++
        [("traceparent", Mhc.Propagation.traceparentValue ctx.spanContext)]
       else []) ++
      (if ctx.baggage ≠ "" then [("baggage", ctx.baggage)] else []) := by
  by_cases hv : ctx.spanContext.isValid <;>
    by_cases hts : ctx.spanContext.traceState = "" <;>
    by_cases hb : ctx.baggage = "" <;>
    simp [Mhc.Propagation.InjectGrpc, Mhc.Propagation.compositeInject,
      Mhc.Propagation.tcBaggage, Mhc.Propagation.TextMapProp.injectOne,
      Mhc.Propagation.tcInject, Mhc.Propagation.baggageInject,
      Mhc.Propagation.grpcCarrier, Mhc.Propagation.CarrierOps.set,
      Mhc.Propagation.assocSet,
      lower_traceparent, lower_tracestate, lower_baggage,
      hv, hts, hb]

/-- What InjectKafka writes into a fresh header map: the same entries
under verbatim (wire, lowercase) keys. -/
theorem injectKafka_eq (ctx : Mhc.Context) :
    Mhc.Propagation.InjectKafka ctx =
      (if ctx.spanContext.isValid then
        (if ctx.spanContext.traceState ≠ "" then
          [("tracestate", ctx.spanContext.traceState)] else []) ++
        [("traceparent", Mhc.Propagation.traceparentValue ctx.spanContext)]
       else []) ++
      (if ctx.baggage ≠ "" then [("baggage", ctx.baggage)] else []) := by
  by_cases hv : ctx.spanContext.isValid <;>
    by_cases hts : ctx.spanContext.traceState = "" <;>
    by_cases hb : ctx.baggage = "" <;>
    simp [Mhc.Propagation.InjectKafka, Mhc.Propagation.compositeInject,
      Mhc.Propagation.tcBaggage, Mhc.Propagation.TextMapProp.injectOne,
      Mhc.Propagation.tcInject, Mhc.Propagation.baggageInject,
      Mhc.Propagation.kafkaCarrier, Mhc.Propagation.CarrierOps.set,
      Mhc.Propagation.assocSet,
      hv, hts, hb]

/-- Reading traceparent back through each carrier yields the same value on
all three injected carriers. -/
theorem inject_get_traceparent_agree (ctx : Mhc.Context) :
    Mhc.Propagation.httpCarrier.get (Mhc.Propagation.InjectHTTP ctx []) "traceparent" =
      Mhc.Propagation.grpcCarrier.get (Mhc.Propagation.InjectGrpc ctx (some [])) "traceparent" ∧
    Mhc.Propagation.grpcCarrier.get (Mhc.Propagation.InjectGrpc ctx (some [])) "traceparent" =
      Mhc.Propagation.kafkaCarrier.get (Mhc.Propagation.InjectKafka ctx) "traceparent" := by
  rw [injectHTTP_eq, injectGrpc_eq, injectKafka_eq]
  by_cases hv : ctx.spanContext.isValid <;>
    by_cases hts : ctx.spanContext.traceState = "" <;>
    by_cases hb : ctx.baggage = "" <;>
    simp [Mhc.Propagation.httpCarrier, Mhc.Propagation.grpcCarrier,
      Mhc.Propagation.kafkaCarrier, Mhc.Propagation.CarrierOps.get,
      Mhc.Propagation.assocGet,
      canonical_traceparent, lower_traceparent, hv, hts, hb]

/-- Reading tracestate back through each carrier yields the same value on
all three injected carriers. -/
theorem inject_get_tracestate_agree (ctx : Mhc.Context) :
    Mhc.Propagation.httpCarrier.get (Mhc.Propagation.InjectHTTP ctx []) "tracestate" =
      Mhc.Propagation.grpcCarrier.get (Mhc.Propagation.InjectGrpc ctx (some [])) "tracestate" ∧
    Mhc.Propagation.grpcCarrier.get (Mhc.Propagation.InjectGrpc ctx (some [])) "tracestate" =
      Mhc.Propagation.kafkaCarrier.get (Mhc.Propagation.InjectKafka ctx) "tracestate" := by
  rw [injectHTTP_eq, injectGrpc_eq, injectKafka_eq]
  by_cases hv : ctx.spanContext.isValid <;>
    by_cases hts : ctx.spanContext.traceState = "" <;>
    by_cases hb : ctx.baggage = "" <;>
    simp [Mhc.Propagation.httpCarrier, Mhc.Propagation.grpcCarrier,
      Mhc.Propagation.kafkaCarrier, Mhc.Propagation.CarrierOps.get,
      Mhc.Propagation.assocGet,
      canonical_tracestate, lower_tracestate, hv, hts, hb]

/-- Reading baggage back through each carrier yields the same value on all
three injected carriers. -/
theorem inject_get_baggage_agree (ctx : Mhc.Context) :
    Mhc.Propagation.httpCarrier.get (Mhc.Propagation.InjectHTTP ctx []) "baggage" =
      Mhc.Propagation.grpcCarrier.get (Mhc.Propagation.InjectGrpc ctx (some [])) "baggage" ∧
    Mhc.Propagation.grpcCarrier.get (Mhc.Propagation.InjectGrpc ctx (some [])) "baggage" =
      Mhc.Propagation.kafkaCarrier.get (Mhc.Propagation.InjectKafka ctx) "baggage" := by
  rw [injectHTTP_eq, injectGrpc_eq, injectKafka_eq]
  by_cases hv : ctx.spanContext.isValid <;>
    by_cases hts : ctx.spanContext.traceState = "" <;>
    by_cases hb : ctx.baggage = "" <;>
    simp [Mhc.Propagation.httpCarrier, Mhc.Propagation.grpcCarrier,
      Mhc.Propagation.kafkaCarrier, Mhc.Propagation.CarrierOps.get,
      Mhc.Propagation.assocGet,
      canonical_baggage, lower_baggage, hv, hts, hb]

/-- The TraceContext extract depends on the carrier only through the
traceparent and tracestate values it reads. -/
theorem tcExtract_congr (ops1 ops2 : Mhc.Propagation.CarrierOps)
    (l1 l2 : List (String × String)) (ctx : Mhc.Context)
    (h1 : ops1.get l1 "traceparent" = ops2.get l2 "traceparent")
    (h2 : ops1.get l1 "tracestate" = ops2.get l2 "tracestate") :
    Mhc.Propagation.tcExtract ops1 ctx l1 = Mhc.Propagation.tcExtract ops2 ctx l2 := by
  unfold Mhc.Propagation.tcExtract
  rw [h1]
  cases hp : Mhc.Propagation.parseTraceparent (ops2.get l2 "traceparent") with
  | none => rfl
  | some sc => simp only [h2]

/-- The Baggage extract depends on the carrier only through the baggage
value it reads. -/
theorem baggageExtract_congr (ops1 ops2 : Mhc.Propagation.CarrierOps)
    (l1 l2 : List (String × String)) (ctx : Mhc.Context)
    (h3 : ops1.get l1 "baggage" = ops2.get l2 "baggage") :
    Mhc.Propagation.baggageExtract ops1 ctx l1 =
      Mhc.Propagation.baggageExtract ops2 ctx l2 := by
  unfold Mhc.Propagation.baggageExtract
  rw [h3]

/-- The composite extract depends on the carrier only through the three
header values it reads. -/
theorem compositeExtract_congr (ops1 ops2 : Mhc.Propagation.CarrierOps)
    (l1 l2 : List (String × String)) (ctx : Mhc.Context)
    (h1 : ops1.get l1 "traceparent" = ops2.get l2 "traceparent")
    (h2 : ops1.get l1 "tracestate" = ops2.get l2 "tracestate")
    (h3 : ops1.get l1 "baggage" = ops2.get l2 "baggage") :
    Mhc.Propagation.compositeExtract Mhc.Propagation.tcBaggage ops1 ctx l1 =
      Mhc.Propagation.compositeExtract Mhc.Propagation.tcBaggage ops2 ctx l2 := by
  show Mhc.Propagation.baggageExtract ops1 (Mhc.Propagation.tcExtract ops1 ctx l1) l1 =
    Mhc.Propagation.baggageExtract ops2 (Mhc.Propagation.tcExtract ops2 ctx l2) l2
  rw [tcExtract_congr ops1 ops2 l1 l2 ctx h1 h2]
  exact baggageExtract_congr ops1 ops2 l1 l2 _ h3

/-- C4: all three transport adapters delegate to the same composite
TraceContext+Baggage propagator; injecting any context into the three
fresh carriers writes the same traceparent/tracestate/baggage entries (the
HTTP carrier differs only by MIME key canonicalization, undone by
lowercasing), the gRPC and Kafka carriers receive literally identical
maps, and extraction from the three injected carriers yields the same
context, so the adapters are pairwise equivalent up to the carrier
type. -/
theorem c4_propagation_adapters_agree (ctx ctx0 : Mhc.Context) :
    (Mhc.Propagation.InjectHTTP ctx []).map
        (fun p => (Mhc.Propagation.lowerKey p.1, p.2)) =
      Mhc.Propagation.InjectGrpc ctx (some []) ∧
    Mhc.Propagation.InjectGrpc ctx (some []) = Mhc.Propagation.InjectKafka ctx ∧
    Mhc.Propagation.ExtractHTTP ctx0 (Mhc.Propagation.InjectHTTP ctx []) =
      Mhc.Propagation.ExtractGrpc ctx0 (Mhc.Propagation.InjectGrpc ctx (some [])) ∧
    Mhc.Propagation.ExtractGrpc ctx0 (Mhc.Propagation.InjectGrpc ctx (some [])) =
      Mhc.Propagation.ExtractKafka ctx0 (some (Mhc.Propagation.InjectKafka ctx)) := by
  refine ⟨?_, ?_, ?_, ?_⟩
  · rw [injectHTTP_eq, injectGrpc_eq]
    by_cases hv : ctx.spanContext.isValid <;>
      by_cases hts : ctx.spanContext.traceState = "" <;>
      by_cases hb : ctx.baggage = "" <;>
      simp [lower_canonical_traceparent, lower_canonical_tracestate,
        lower_canonical_baggage, hv, hts, hb]
  · rw [injectGrpc_eq, injectKafka_eq]
  · exact compositeExtract_congr Mhc.Propagation.httpCarrier
      Mhc.Propagation.grpcCarrier _ _ ctx0
      (inject_get_traceparent_agree ctx).1 (inject_get_tracestate_agree ctx).1
      (inject_get_baggage_agree ctx).1
  · exact compositeExtract_congr Mhc.Propagation.grpcCarrier
      Mhc.Propagation.kafkaCarrier _ _ ctx0
      (inject_get_traceparent_agree ctx).2 (inject_get_tracestate_agree ctx).2
      (inject_get_baggage_agree ctx).2
